import Mathlib

/-!
Shallow embedding of `src/main.rs` of evdev-macros: a daemon that turns a
grabbed input device into a macro keyboard.  Effective-identity syscalls,
process spawning and desktop notifications are modelled as state
transformers over `SysState`, with an oracle (`Env.syscallOk`) deciding
the success of each fallible syscall in invocation order; `.unwrap()`
panics are modelled explicitly.
-/

/-- A record of one spawned child process: the program path, the working
directory, whether stdin was closed (`Stdio::null()`), and the effective
identity in force at spawn time. -/
structure Proc where
  program : String
  cwd : String
  stdinNull : Bool
  euid : Nat
  egid : Nat
deriving DecidableEq, Repr

/-- Process-wide mutable state threaded through the embedded functions:
effective uid/gid, the log of spawned processes, the count of desktop
notification attempts, the log of directories scanned by `read_dir`, and
the counter indexing fallible syscalls into the oracle. -/
structure SysState where
  euid : Nat
  egid : Nat
  spawned : List Proc
  notes : Nat
  scans : List String
  ctr : Nat
deriving DecidableEq, Repr

/-- The environment the daemon runs in: the real (login) uid/gid
(`users::get_current_uid/gid`), the login name
(`users::get_current_username`, `none` when the user no longer exists),
the filesystem (`readDir p` is the list of file names in directory `p`,
`none` when `read_dir` fails), and the oracle giving the outcome of the
n-th fallible syscall (set-effective-id, spawn, notification). -/
structure Env where
  realUid : Nat
  realGid : Nat
  username : Option String
  readDir : String → Option (List String)
  syscallOk : Nat → Bool

/-- `users::switch::set_effective_uid`: on success the effective uid
changes; on failure it is left unchanged.  Consumes one oracle slot. -/
def setEuid (env : Env) (s : SysState) (uid : Nat) : SysState × Bool :=
  let ok := env.syscallOk s.ctr
  let s' := { s with ctr := s.ctr + 1 }
  if ok then ({ s' with euid := uid }, true) else (s', false)

/-- `users::switch::set_effective_gid`, analogous to `setEuid`. -/
def setEgid (env : Env) (s : SysState) (gid : Nat) : SysState × Bool :=
  let ok := env.syscallOk s.ctr
  let s' := { s with ctr := s.ctr + 1 }
  if ok then ({ s' with egid := gid }, true) else (s', false)

/-- `Command::new(path).stdin(Stdio::null()).current_dir(working_dir).spawn()`:
on success a child process record is appended, carrying the effective
identity in force at spawn time. -/
def spawnProc (env : Env) (s : SysState) (cwd program : String) : SysState × Bool :=
  let ok := env.syscallOk s.ctr
  let s' := { s with ctr := s.ctr + 1 }
  if ok then
    ({ s' with spawned := s'.spawned ++ [⟨program, cwd, true, s'.euid, s'.egid⟩] }, true)
  else (s', false)

/-- `Notification::new()...show()`: a best-effort desktop notification;
the attempt is counted whether or not it succeeds. -/
def showNote (env : Env) (s : SysState) : SysState × Bool :=
  let ok := env.syscallOk s.ctr
  let s' := { s with ctr := s.ctr + 1, notes := s.notes + 1 }
  (s', ok)

/-- Outcome of `MacroBoard::execute_script`: the Rust `io::Result<()>`
(`ok`/`err`), plus `panicked` for the `.unwrap()` calls on the
restore path (lines 59-60 of main.rs). -/
inductive ExecRes where
  | ok : ExecRes
  | err : ExecRes
  | panicked : ExecRes
deriving DecidableEq, Repr

/-- `MacroBoard::execute_script` (main.rs lines 46-71): capture the old
effective ids, lower the effective uid then gid to the real ids (each
with `?`, so a failure returns early), spawn the script with stdin
closed and the given working directory, then restore the old ids with
`.unwrap()` (a restore failure panics), and finally return the spawn
result. -/
def execute_script (env : Env) (s : SysState) (working_dir path : String) :
    SysState × ExecRes :=
  let old_euid := s.euid
  let old_egid := s.egid
  let p1 := setEuid env s env.realUid
  if p1.2 = false then (p1.1, .err)
  else
    let p2 := setEgid env p1.1 env.realGid
    if p2.2 = false then (p2.1, .err)
    else
      let p3 := spawnProc env p2.1 working_dir path
      let p4 := setEuid env p3.1 old_euid
      if p4.2 = false then (p4.1, .panicked)
      else
        let p5 := setEgid env p4.1 old_egid
        if p5.2 = false then (p5.1, .panicked)
        else (p5.1, if p3.2 then .ok else .err)

/-- Index of the last `.` character in a list of characters. -/
def lastDotAux : List Char → Nat → Option Nat → Option Nat
  | [], _, acc => acc
  | c :: rest, i, acc => lastDotAux rest (i + 1) (if c = '.' then some i else acc)

/-- Rust `Path::file_stem` restricted to a plain file name (as returned
by `read_dir`): the portion before the last `.`, except that a name with
no `.`, or whose only `.` is leading, is its own stem; the empty name
has no stem. -/
def fileStem (name : String) : Option String :=
  if name = "" then none
  else
    match lastDotAux name.toList 0 none with
    | none => some name
    | some 0 => some name
    | some i => some (String.mk (name.toList.take i))

/-- The configuration directory the daemon derives from a login name:
`format!("/home/\x7busername\x7d/.config/evdev-macros/")` (main.rs line 77). -/
def configDirFor (username : String) : String :=
  "/home/" ++ username ++ "/.config/evdev-macros/"

/-- Outcome of `MacroBoard::run_macro`: `Ok(())`, an error carrying its
message, or a panic propagated from `execute_script`. -/
inductive MacroRes where
  | ok : MacroRes
  | err : String → MacroRes
  | panicked : MacroRes
deriving DecidableEq, Repr

/-- The `for entry in entries` loop of `run_macro` (main.rs lines 88-91):
run each matching entry with `execute_script(...).and(Ok(()))?`, so the
first error aborts the loop and is propagated. -/
def runEntries (env : Env) (config_path : String) :
    SysState → List String → SysState × MacroRes
  | s, [] => (s, .ok)
  | s, e :: rest =>
    let p := execute_script env s config_path (config_path ++ e)
    match p.2 with
    | .ok => runEntries env config_path p.1 rest
    | .err => (p.1, .err "io error")
    | .panicked => (p.1, .panicked)

/-- `MacroBoard::run_macro` (main.rs lines 73-94): look up the real
user's login name (error if the user no longer exists), compute the
configuration directory from it, read that directory (error if the read
fails), keep exactly the entries whose file stem equals `macro_name`,
and execute each in order. -/
def runMacro (env : Env) (s : SysState) (macro_name : String) :
    SysState × MacroRes :=
  match env.username with
  | none => (s, .err "User no longer exists!")
  | some username =>
    let config_path := configDirFor username
    let s1 := { s with scans := s.scans ++ [config_path] }
    match env.readDir config_path with
    | none => (s1, .err "read_dir failed")
    | some files =>
      let entries := files.filter (fun f => fileStem f == some macro_name)
      runEntries env config_path s1 entries

/-- The kind of an input event: a key event with its raw code, or any
non-key event. -/
inductive EventKind where
  | key : Nat → EventKind
  | other : EventKind
deriving DecidableEq, Repr

/-- An evdev input event: its value (0 = release, nonzero =
press/repeat) and its kind. -/
structure InputEvent where
  value : Int
  kind : EventKind
deriving DecidableEq, Repr

/-- The Linux key code of `KEY_ESC`. -/
def escCode : Nat := 1

/-- The symbolic key name the dispatcher derives with
`format!("\x7bkey:?\x7d")`.  Modelled from the spec: the Debug
representation of the external evdev `Key` type is a stable total
mapping printing the kernel constant name for known codes (`KEY_ESC`,
`KEY_A`, ...) and a non-colliding debug form for unknown codes. -/
def keyName (code : Nat) : String :=
  if code = 1 then "KEY_ESC"
  else if code = 30 then "KEY_A"
  else if code = 48 then "KEY_B"
  else if code = 57 then "KEY_SPACE"
  else "unknown key " ++ toString code

/-- Result of one dispatcher step: the system state, the `quit` flag of
the `MacroBoard`, and whether the step panicked. -/
structure DispatchOut where
  s : SysState
  quit : Bool
  panicked : Bool
deriving DecidableEq, Repr

/-- `MacroBoard::process_event` (main.rs lines 96-124): set `quit` on an
escape-key release; on any key release run the macro named by the key,
and on a macro error drop privileges (with `.unwrap()`, so a failed drop
panics), attempt a best-effort notification, and restore with `.ok()`
(failures swallowed); nonzero-value key events are only logged; non-key
events are ignored. -/
def process_event (env : Env) (s : SysState) (quit : Bool) (ev : InputEvent) :
    DispatchOut :=
  let quit := if ev.value = 0 ∧ ev.kind = EventKind.key escCode then true else quit
  match ev.kind with
  | EventKind.key k =>
    if ev.value = 0 then
      let p := runMacro env s (keyName k)
      match p.2 with
      | .ok => ⟨p.1, quit, false⟩
      | .panicked => ⟨p.1, quit, true⟩
      | .err _ =>
        let old_euid := p.1.euid
        let old_egid := p.1.egid
        let q1 := setEuid env p.1 env.realUid
        if q1.2 = false then ⟨q1.1, quit, true⟩
        else
          let q2 := setEgid env q1.1 env.realGid
          if q2.2 = false then ⟨q2.1, quit, true⟩
          else
            let q3 := showNote env q2.1
            let q4 := setEuid env q3.1 old_euid
            let q5 := setEgid env q4.1 old_egid
            ⟨q5.1, quit, false⟩
    else ⟨s, quit, false⟩
  | EventKind.other => ⟨s, quit, false⟩

/-- The three outcomes of `receiver.recv_timeout(100ms)`. -/
inductive RecvOutcome where
  | event : InputEvent → RecvOutcome
  | timeout : RecvOutcome
  | disconnected : RecvOutcome
deriving DecidableEq, Repr

/-- `MacroBoard::process_events` (main.rs lines 126-135): dispatch a
received event, set `quit` on channel disconnection, and do nothing on a
timeout. -/
def process_events (env : Env) (s : SysState) (quit : Bool) (r : RecvOutcome) :
    DispatchOut :=
  match r with
  | .event ev => process_event env s quit ev
  | .disconnected => ⟨s, true, false⟩
  | .timeout => ⟨s, quit, false⟩

/-- The `(vendor, product)` pair reported by a device. -/
structure InputId where
  vendor : Nat
  product : Nat
deriving DecidableEq, Repr

/-- A device as inspected during discovery: its input id and its
supported-key set (`none` when `supported_keys()` reports nothing). -/
structure DeviceModel where
  inputId : InputId
  supportedKeys : Option (List Nat)
deriving DecidableEq, Repr

/-- `device.supported_keys().map(|keys| keys.contains(KEY_ESC)).unwrap_or_default()`
(main.rs lines 150-153). -/
def supports_esc (d : DeviceModel) : Bool :=
  (d.supportedKeys.map (fun keys => keys.contains escCode)).getD false

/-- The device-selection predicate of `main` (main.rs line 154). -/
def qualifies (vendor product : Nat) (d : DeviceModel) : Bool :=
  d.inputId.vendor == vendor && d.inputId.product == product && supports_esc d

/-! Concrete environments and states used by counterexamples and
witnesses. -/

/-- Initial state: the daemon runs with elevated effective identity
(root, uid/gid 0), nothing spawned, nothing scanned. -/
def s0 : SysState := ⟨0, 0, [], 0, [], 0⟩

/-- Environment where the effective-uid drop succeeds but the
effective-gid drop (the second syscall) fails. -/
def cEnv1 : Env :=
  { realUid := 1000, realGid := 1000, username := some "alice",
    readDir := fun p => if p = configDirFor "alice" then some ["KEY_A.sh"] else none,
    syscallOk := fun n => n == 0 }

/-- Environment where drop-uid, drop-gid and spawn succeed but the
fourth syscall — the restore of the old effective uid — fails. -/
def cEnv2 : Env :=
  { realUid := 1000, realGid := 1000, username := some "alice",
    readDir := fun p => if p = configDirFor "alice" then some ["KEY_A.sh"] else none,
    syscallOk := fun n => decide (n < 3) }

/-- Environment whose configuration directory holds no file with stem
`KEY_B`; every syscall succeeds. -/
def cEnv3 : Env :=
  { realUid := 1000, realGid := 1000, username := some "alice",
    readDir := fun p => if p = configDirFor "alice" then some ["other.sh"] else none,
    syscallOk := fun _ => true }

/-- Environment whose configuration directory holds two files with stem
`KEY_A` (different extensions), one file whose stem differs only by
case, and one unrelated file; every syscall succeeds. -/
def wEnv : Env :=
  { realUid := 1000, realGid := 1000, username := some "alice",
    readDir := fun p =>
      if p = configDirFor "alice" then some ["KEY_A.sh", "KEY_A.py", "key_a.sh", "other.txt"]
      else none,
    syscallOk := fun _ => true }

/-! Helper lemmas. -/

/-- `setEuid` leaves the scan log unchanged. -/
@[simp]
theorem setEuid_scans (env : Env) (s : SysState) (u : Nat) :
    (setEuid env s u).1.scans = s.scans := by
  unfold setEuid; cases env.syscallOk s.ctr <;> simp

/-- `setEuid` leaves the notification count unchanged. -/
@[simp]
theorem setEuid_notes (env : Env) (s : SysState) (u : Nat) :
    (setEuid env s u).1.notes = s.notes := by
  unfold setEuid; cases env.syscallOk s.ctr <;> simp

/-- `setEuid` leaves the spawn log unchanged. -/
@[simp]
theorem setEuid_spawned (env : Env) (s : SysState) (u : Nat) :
    (setEuid env s u).1.spawned = s.spawned := by
  unfold setEuid; cases env.syscallOk s.ctr <;> simp

/-- `setEgid` leaves the scan log unchanged. -/
@[simp]
theorem setEgid_scans (env : Env) (s : SysState) (g : Nat) :
    (setEgid env s g).1.scans = s.scans := by
  unfold setEgid; cases env.syscallOk s.ctr <;> simp

/-- `setEgid` leaves the notification count unchanged. -/
@[simp]
theorem setEgid_notes (env : Env) (s : SysState) (g : Nat) :
    (setEgid env s g).1.notes = s.notes := by
  unfold setEgid; cases env.syscallOk s.ctr <;> simp

/-- `setEgid` leaves the spawn log unchanged. -/
@[simp]
theorem setEgid_spawned (env : Env) (s : SysState) (g : Nat) :
    (setEgid env s g).1.spawned = s.spawned := by
  unfold setEgid; cases env.syscallOk s.ctr <;> simp

/-- `spawnProc` leaves the scan log unchanged. -/
@[simp]
theorem spawnProc_scans (env : Env) (s : SysState) (cwd program : String) :
    (spawnProc env s cwd program).1.scans = s.scans := by
  unfold spawnProc; cases env.syscallOk s.ctr <;> simp

/-- `spawnProc` leaves the notification count unchanged. -/
@[simp]
theorem spawnProc_notes (env : Env) (s : SysState) (cwd program : String) :
    (spawnProc env s cwd program).1.notes = s.notes := by
  unfold spawnProc; cases env.syscallOk s.ctr <;> simp

/-- `execute_script` never touches the scan log or the notification
count, whatever the syscall outcomes. -/
theorem execute_script_frame (env : Env) (s : SysState) (cwd path : String) :
    (execute_script env s cwd path).1.scans = s.scans ∧
    (execute_script env s cwd path).1.notes = s.notes := by
  unfold execute_script
  dsimp only
  refine ⟨?_, ?_⟩ <;> split_ifs <;> simp

/-- `runEntries` never touches the scan log. -/
theorem runEntries_scans (env : Env) (cp : String) :
    ∀ (es : List String) (s : SysState),
      (runEntries env cp s es).1.scans = s.scans := by
  intro es
  induction es with
  | nil => intro s; rfl
  | cons e rest ih =>
    intro s
    unfold runEntries
    rcases h : (execute_script env s cp (cp ++ e)).2 with _ | _ | _ <;>
      simp [h, ih, (execute_script_frame env s cp (cp ++ e)).1]

/-- Under an all-success oracle, `execute_script` spawns exactly one
process — with the given program, the given working directory, stdin
closed, and the real user's effective identity — and restores the
effective ids, returning `Ok`. -/
theorem execute_script_all_ok (env : Env) (s : SysState) (cwd path : String)
    (hall : ∀ n, env.syscallOk n = true) :
    execute_script env s cwd path =
      (⟨s.euid, s.egid,
        s.spawned ++ [⟨path, cwd, true, env.realUid, env.realGid⟩],
        s.notes, s.scans, s.ctr + 5⟩, ExecRes.ok) := by
  unfold execute_script setEuid setEgid spawnProc
  simp [hall]

/-- Under an all-success oracle, the entry loop spawns exactly one
process per entry, in order, each with the configuration directory as
working directory, stdin closed, and the real user's identity, and
returns `Ok` with the effective ids restored. -/
theorem runEntries_all_ok (env : Env) (cp : String)
    (hall : ∀ n, env.syscallOk n = true) :
    ∀ (es : List String) (s : SysState),
      runEntries env cp s es =
        (⟨s.euid, s.egid,
          s.spawned ++ es.map (fun f => ⟨cp ++ f, cp, true, env.realUid, env.realGid⟩),
          s.notes, s.scans, s.ctr + 5 * es.length⟩, MacroRes.ok) := by
  intro es
  induction es with
  | nil => intro s; simp [runEntries]
  | cons e rest ih =>
    intro s
    unfold runEntries
    rw [execute_script_all_ok env s cp (cp ++ e) hall]
    dsimp only
    rw [ih]
    dsimp only
    simp only [Prod.mk.injEq, SysState.mk.injEq, List.map_cons, List.length_cons,
      List.append_assoc, List.singleton_append, true_and, and_true]
    ring

/-- Under an all-success oracle, `runMacro` scans the configuration
directory derived from the login name, spawns exactly one process per
entry whose file stem equals the macro name, and returns `Ok`. -/
theorem runMacro_all_ok (env : Env) (s : SysState) (name u : String)
    (files : List String)
    (hall : ∀ n, env.syscallOk n = true)
    (hu : env.username = some u)
    (hd : env.readDir (configDirFor u) = some files) :
    runMacro env s name =
      (⟨s.euid, s.egid,
        s.spawned ++ (files.filter (fun f => fileStem f == some name)).map
          (fun f => ⟨configDirFor u ++ f, configDirFor u, true, env.realUid, env.realGid⟩),
        s.notes, s.scans ++ [configDirFor u],
        s.ctr + 5 * (files.filter (fun f => fileStem f == some name)).length⟩,
       MacroRes.ok) := by
  unfold runMacro
  rw [hu]
  dsimp only
  rw [hd]
  dsimp only
  rw [runEntries_all_ok env (configDirFor u) hall]

/-- When no file stem in the configuration directory equals the macro
name, `runMacro` only records the directory scan and returns `Ok`. -/
theorem runMacro_zero_match_eq (env : Env) (s : SysState) (name u : String)
    (files : List String)
    (hu : env.username = some u)
    (hd : env.readDir (configDirFor u) = some files)
    (hz : files.filter (fun f => fileStem f == some name) = []) :
    runMacro env s name =
      ({ s with scans := s.scans ++ [configDirFor u] }, MacroRes.ok) := by
  unfold runMacro
  rw [hu]
  dsimp only
  rw [hd]
  dsimp only
  rw [hz]
  rfl

/-- The `quit` flag after `process_event` is exactly the result of the
escape-release check at the top of the function, whatever the rest of
the dispatch does. -/
theorem process_event_quit_eq (env : Env) (s : SysState) (q : Bool) (ev : InputEvent) :
    (process_event env s q ev).quit =
      if ev.value = 0 ∧ ev.kind = EventKind.key escCode then true else q := by
  obtain ⟨v, kind⟩ := ev
  unfold process_event
  cases kind with
  | other => rfl
  | key k =>
    dsimp only
    by_cases hv : v = 0
    · rw [if_pos hv]
      cases hm : (runMacro env s (keyName k)).2 with
      | ok => rfl
      | panicked => rfl
      | err m => split_ifs <;> rfl
    · rw [if_neg hv]

/-- C4: a key event for the escape key with value 0 (release) makes
`process_event` set the quit flag, regardless of the configuration
directory's state, the login name, or any syscall outcome. -/
theorem process_event_esc_release_sets_quit (env : Env) (s : SysState) (q : Bool)
    (ev : InputEvent) (hv : ev.value = 0) (hk : ev.kind = EventKind.key escCode) :
    (process_event env s q ev).quit = true := by
  rw [process_event_quit_eq, if_pos ⟨hv, hk⟩]

/-- C4 witness: an escape release with an empty configuration directory
still sets the quit flag. -/
theorem process_event_esc_release_sets_quit_witness :
    (process_event cEnv3 s0 false ⟨0, EventKind.key 1⟩).quit = true :=
  process_event_esc_release_sets_quit cEnv3 s0 false ⟨0, EventKind.key 1⟩ rfl rfl

/-- C6: `process_events` on channel disconnection sets the quit flag
without touching anything else and without error, and on a timeout
leaves the dispatcher state entirely unchanged. -/
theorem process_events_disconnect_and_timeout (env : Env) (s : SysState) (q : Bool) :
    process_events env s q RecvOutcome.disconnected = ⟨s, true, false⟩ ∧
    process_events env s q RecvOutcome.timeout = ⟨s, q, false⟩ :=
  ⟨rfl, rfl⟩

/-- C9: a device is selected iff its vendor and product ids match the
configured pair and its supported-key set is present and contains the
escape key. -/
theorem device_qualifies_iff (v p : Nat) (d : DeviceModel) :
    qualifies v p d = true ↔
      d.inputId.vendor = v ∧ d.inputId.product = p ∧
        ∃ ks, d.supportedKeys = some ks ∧ escCode ∈ ks := by
  unfold qualifies supports_esc
  cases h : d.supportedKeys with
  | none => simp [h]
  | some ks => simp [h, and_assoc]

/-- C8: a key event with nonzero value (press or repeat) leaves the
whole dispatcher state unchanged: no directory is scanned, nothing is
spawned, no notification is attempted, the quit flag keeps its value,
and there is no panic. -/
theorem process_event_nonzero_value_noop (env : Env) (s : SysState) (q : Bool)
    (ev : InputEvent) (k : Nat)
    (hk : ev.kind = EventKind.key k) (hv : ev.value ≠ 0) :
    process_event env s q ev = ⟨s, q, false⟩ := by
  obtain ⟨v, kind⟩ := ev
  simp only at hv
  subst hk
  unfold process_event
  dsimp only
  rw [if_neg hv, if_neg (fun h => hv h.1)]

/-- C8 witness: a press (value 1) of the A key changes nothing, even
with a matching script present. -/
theorem process_event_nonzero_value_noop_witness :
    process_event wEnv s0 false ⟨1, EventKind.key 30⟩ = ⟨s0, false, false⟩ :=
  process_event_nonzero_value_noop wEnv s0 false ⟨1, EventKind.key 30⟩ 30 rfl (by decide)

/-- C1: evaluation at the failing input.  Starting from effective
identity (0, 0) with real identity (1000, 1000), when the effective-uid
drop succeeds but the effective-gid drop fails, `execute_script` returns
an error with the effective uid still lowered to 1000 — not restored to
its pre-call value 0 as the claim requires. -/
theorem execute_script_partial_drop_leaves_euid_lowered :
    s0.euid = 0 ∧
    (execute_script cEnv1 s0 (configDirFor "alice")
        (configDirFor "alice" ++ "KEY_A.sh")).2 = ExecRes.err ∧
    (execute_script cEnv1 s0 (configDirFor "alice")
        (configDirFor "alice" ++ "KEY_A.sh")).1.euid = 1000 := by
  decide

/-- C2: evaluation at the failing input.  A release of `KEY_A` with one
matching script, where the privilege drop and the spawn succeed but the
restore of the old effective uid fails: the `.unwrap()` on the restore
panics, so `process_event` does not return normally. -/
theorem process_event_restore_failure_panics :
    (process_event cEnv2 s0 false ⟨0, EventKind.key 30⟩).panicked = true := by
  decide

/-- C3 counterexample: a release of `KEY_B` with a configuration
directory whose only entry has a different stem: no process is spawned,
but `run_macro` returns `Ok` — no error is reported and no notification
is attempted, contrary to the claim. -/
theorem runMacro_zero_match_no_error_cex :
    (runMacro cEnv3 s0 "KEY_B").2 = MacroRes.ok ∧
    (runMacro cEnv3 s0 "KEY_B").1.spawned = [] ∧
    (process_event cEnv3 s0 false ⟨0, EventKind.key 48⟩).s.notes = 0 ∧
    (process_event cEnv3 s0 false ⟨0, EventKind.key 48⟩).s.spawned = [] := by
  decide

/-- C3 amended: for a key-release event whose derived name matches zero
files, no process is spawned and the invocation completes silently as a
success — no notification is attempted and nothing panics. -/
theorem process_event_zero_match_silent_success (env : Env) (s : SysState) (q : Bool)
    (k : Nat) (u : String) (files : List String)
    (hu : env.username = some u)
    (hd : env.readDir (configDirFor u) = some files)
    (hz : files.filter (fun f => fileStem f == some (keyName k)) = []) :
    (process_event env s q ⟨0, EventKind.key k⟩).s.spawned = s.spawned ∧
    (process_event env s q ⟨0, EventKind.key k⟩).s.notes = s.notes ∧
    (process_event env s q ⟨0, EventKind.key k⟩).panicked = false := by
  have h := runMacro_zero_match_eq env s (keyName k) u files hu hd hz
  unfold process_event
  dsimp only
  rw [if_pos rfl, h]
  exact ⟨rfl, rfl, rfl⟩

/-- C3 amended witness: the concrete `KEY_B` scenario. -/
theorem process_event_zero_match_silent_success_witness :
    (process_event cEnv3 s0 false ⟨0, EventKind.key 48⟩).s.spawned = s0.spawned ∧
    (process_event cEnv3 s0 false ⟨0, EventKind.key 48⟩).s.notes = s0.notes ∧
    (process_event cEnv3 s0 false ⟨0, EventKind.key 48⟩).panicked = false :=
  process_event_zero_match_silent_success cEnv3 s0 false 48 "alice" ["other.sh"]
    rfl (by decide) (by decide)

/-- C5: when the directory holds exactly N entries whose stem equals the
macro name and every syscall succeeds, `runMacro` spawns exactly those
N processes, in directory order, each with the configuration directory
as working directory and stdin closed, and returns `Ok`. -/
theorem runMacro_spawns_all_matches (env : Env) (s : SysState) (name u : String)
    (files : List String) (N : Nat)
    (hall : ∀ n, env.syscallOk n = true)
    (hu : env.username = some u)
    (hd : env.readDir (configDirFor u) = some files)
    (hN : (files.filter (fun f => fileStem f == some name)).length = N)
    (hpos : 1 ≤ N) :
    (runMacro env s name).1.spawned =
      s.spawned ++ (files.filter (fun f => fileStem f == some name)).map
        (fun f => ⟨configDirFor u ++ f, configDirFor u, true, env.realUid, env.realGid⟩) ∧
    ((runMacro env s name).1.spawned).length = s.spawned.length + N ∧
    s.spawned.length < ((runMacro env s name).1.spawned).length ∧
    (runMacro env s name).2 = MacroRes.ok := by
  rw [runMacro_all_ok env s name u files hall hu hd]
  refine ⟨rfl, ?_, ?_, rfl⟩
  · simp [hN]
  · simp [hN]
    omega

/-- C5 witness: `KEY_A` matches two files (`.sh` and `.py`); exactly two
processes are spawned, with the configuration directory as working
directory and stdin closed. -/
theorem runMacro_spawns_all_matches_witness :
    (runMacro wEnv s0 "KEY_A").1.spawned =
      s0.spawned ++ ((["KEY_A.sh", "KEY_A.py", "key_a.sh", "other.txt"].filter
        (fun f => fileStem f == some "KEY_A")).map
        (fun f => ⟨configDirFor "alice" ++ f, configDirFor "alice", true,
          wEnv.realUid, wEnv.realGid⟩)) ∧
    ((runMacro wEnv s0 "KEY_A").1.spawned).length = s0.spawned.length + 2 ∧
    s0.spawned.length < ((runMacro wEnv s0 "KEY_A").1.spawned).length ∧
    (runMacro wEnv s0 "KEY_A").2 = MacroRes.ok :=
  runMacro_spawns_all_matches wEnv s0 "KEY_A" "alice"
    ["KEY_A.sh", "KEY_A.py", "key_a.sh", "other.txt"] 2
    (fun _ => rfl) rfl (by decide) (by decide) (by decide)

/-- C7: every `runMacro` invocation scans exactly one directory, namely
`/home/<login-name>/.config/evdev-macros/` computed from the login name
current at that invocation (the scan log grows by that one entry,
whatever the directory read or the executions then do). -/
theorem runMacro_scans_login_config_dir (env : Env) (s : SysState) (name u : String)
    (hu : env.username = some u) :
    (runMacro env s name).1.scans =
      s.scans ++ ["/home/" ++ u ++ "/.config/evdev-macros/"] := by
  unfold runMacro
  rw [hu]
  dsimp only
  cases hd : env.readDir (configDirFor u) with
  | none => rfl
  | some files =>
    dsimp only
    rw [runEntries_scans]
    rfl

/-- C7 witness: a concrete invocation scans exactly
`/home/alice/.config/evdev-macros/`. -/
theorem runMacro_scans_login_config_dir_witness :
    (runMacro cEnv3 s0 "KEY_B").1.scans =
      s0.scans ++ ["/home/" ++ "alice" ++ "/.config/evdev-macros/"] :=
  runMacro_scans_login_config_dir cEnv3 s0 "KEY_B" "alice" rfl

/-- C10: a key release for code `k` is resolved with the symbolic name
`keyName k` (the total Debug-format mapping), and the processes spawned
are exactly those for the directory entries whose file stem equals that
name by case-sensitive string equality. -/
theorem process_event_release_filters_by_key_name (env : Env) (s : SysState) (q : Bool)
    (k : Nat) (u : String) (files : List String)
    (hall : ∀ n, env.syscallOk n = true)
    (hu : env.username = some u)
    (hd : env.readDir (configDirFor u) = some files) :
    (process_event env s q ⟨0, EventKind.key k⟩).s.spawned =
      s.spawned ++ (files.filter (fun f => fileStem f == some (keyName k))).map
        (fun f => ⟨configDirFor u ++ f, configDirFor u, true, env.realUid, env.realGid⟩) := by
  have h := runMacro_all_ok env s (keyName k) u files hall hu hd
  unfold process_event
  dsimp only
  rw [if_pos rfl, h]

/-- C10 witness: key code 30 yields the name `KEY_A`; `KEY_A.sh` and
`KEY_A.py` match, while `key_a.sh` (differing only by case) and
`other.txt` do not. -/
theorem process_event_release_filters_by_key_name_witness :
    (process_event wEnv s0 false ⟨0, EventKind.key 30⟩).s.spawned =
      s0.spawned ++ ((["KEY_A.sh", "KEY_A.py", "key_a.sh", "other.txt"].filter
        (fun f => fileStem f == some (keyName 30))).map
        (fun f => ⟨configDirFor "alice" ++ f, configDirFor "alice", true,
          wEnv.realUid, wEnv.realGid⟩)) :=
  process_event_release_filters_by_key_name wEnv s0 false 30 "alice"
    ["KEY_A.sh", "KEY_A.py", "key_a.sh", "other.txt"]
    (fun _ => rfl) rfl (by decide)
